import Mathlib

/-!
Shallow embedding of the sdp-parser repository (Rust, nom 7 combinators).

Source files embedded:
- src/src/session_desription/version.rs
- src/src/session_desription/origin.rs
- src/src/session_desription/session_name.rs
- src/src/session_desription/mod.rs

Input strings are modelled as List Char.  A nom parser of type
IResult<&str, T, E> is modelled as a function List Char → PRes T, where
PRes.ok carries the remaining input and the value, PRes.err stands for
nom::Err::Error / nom::Err::Incomplete (the two are collapsed: the only
streaming parser in the source, not_line_ending in origin.rs, occurs as
the last branch of an alt and under an unwrap, where the two kinds are
observationally identical), and PRes.panicked stands for a Rust panic
raised inside the parser (unwrap / unimplemented!).
-/

namespace SdpParser

inductive PRes (α : Type) where
  | ok : List Char → α → PRes α
  | err : PRes α
  | panicked : PRes α
deriving DecidableEq

/-- Splits a list at the first element not satisfying p: (maximal matching run, rest). -/
def splitWhile (p : Char → Bool) : List Char → List Char × List Char
  | [] => ([], [])
  | c :: cs =>
    if p c then
      let (m, r) := splitWhile p cs
      (c :: m, r)
    else ([], c :: cs)

/-- Monadic sequencing of embedded nom parsers; err and panics propagate. -/
def pbind (p : List Char → PRes α) (f : α → List Char → PRes β) (input : List Char) : PRes β :=
  match p input with
  | .ok rest v => f v rest
  | .err => .err
  | .panicked => .panicked

def pureP (v : α) (input : List Char) : PRes α := .ok input v

/-- nom combinator::map with a pure closure. -/
def pmap (p : List Char → PRes α) (f : α → β) (input : List Char) : PRes β :=
  match p input with
  | .ok rest v => .ok rest (f v)
  | .err => .err
  | .panicked => .panicked

/-- nom combinator::map whose closure calls .unwrap() on a Result: the closure
panics when the Result is an Err (modelled by the Option being none). -/
def pmapUnwrap (p : List Char → PRes α) (f : α → Option β) (input : List Char) : PRes β :=
  match p input with
  | .ok rest v =>
    match f v with
    | some b => .ok rest b
    | none => .panicked
  | .err => .err
  | .panicked => .panicked

/-- nom sequence::preceded. -/
def precededP (a : List Char → PRes α) (b : List Char → PRes β) : List Char → PRes β :=
  pbind a fun _ => b

/-- nom sequence::terminated. -/
def terminatedP (a : List Char → PRes α) (b : List Char → PRes β) : List Char → PRes α :=
  pbind a fun v => pbind b fun _ => pureP v

/-- nom combinator::opt: an Error becomes none without consuming input. -/
def optP (p : List Char → PRes α) (input : List Char) : PRes (Option α) :=
  match p input with
  | .ok rest v => .ok rest (some v)
  | .err => .ok input none
  | .panicked => .panicked

/-- nom branch::alt with two alternatives: the second runs only when the first
fails with a recoverable Error. -/
def alt2 (a b : List Char → PRes α) (input : List Char) : PRes α :=
  match a input with
  | .err => b input
  | r => r

/-- nom combinator::peek: runs p but returns the original input as the remainder. -/
def peekP (p : List Char → PRes α) (input : List Char) : PRes α :=
  match p input with
  | .ok _ v => .ok input v
  | .err => .err
  | .panicked => .panicked

/-- nom bytes::complete::tag. -/
def tagP (t : List Char) (input : List Char) : PRes (List Char) :=
  if t.isPrefixOf input then .ok (input.drop t.length) t else .err

/-- nom character::complete::alpha1 (ASCII letters, one or more). -/
def alpha1 (input : List Char) : PRes (List Char) :=
  match splitWhile (fun c => c.isAlpha) input with
  | ([], _) => .err
  | (m, r) => .ok r m

/-- nom character::complete::alphanumeric1 (ASCII letters and digits, one or more). -/
def alphanumeric1 (input : List Char) : PRes (List Char) :=
  match splitWhile (fun c => c.isAlphanum) input with
  | ([], _) => .err
  | (m, r) => .ok r m

/-- nom character::complete::digit1 (ASCII digits, one or more). -/
def digit1 (input : List Char) : PRes (List Char) :=
  match splitWhile (fun c => c.isDigit) input with
  | ([], _) => .err
  | (m, r) => .ok r m

/-- nom character::complete::multispace1 (SP, HTAB, CR, LF; one or more). -/
def multispace1 (input : List Char) : PRes (List Char) :=
  match splitWhile (fun c => c = ' ' || c = '\t' || c = '\r' || c = '\n') input with
  | ([], _) => .err
  | (m, r) => .ok r m

def digitsToNat (ds : List Char) : Nat :=
  ds.foldl (fun a c => a * 10 + (c.toNat - 48)) 0

/-- nom character::complete::u8: maximal decimal digit run, Error when empty or
when the value overflows the 8-bit range. -/
def u8P (input : List Char) : PRes Nat :=
  match splitWhile (fun c => c.isDigit) input with
  | ([], _) => .err
  | (ds, r) =>
    let v := digitsToNat ds
    if v ≤ 255 then .ok r v else .err

/-- nom character::complete::u64: maximal decimal digit run, Error when empty or
when the value overflows the 64-bit range. -/
def u64P (input : List Char) : PRes Nat :=
  match splitWhile (fun c => c.isDigit) input with
  | ([], _) => .err
  | (ds, r) =>
    let v := digitsToNat ds
    if v ≤ 18446744073709551615 then .ok r v else .err

/-- nom character::complete::line_ending: LF or CRLF. -/
def line_ending : List Char → PRes (List Char)
  | '\n' :: rest => .ok rest ['\n']
  | '\r' :: '\n' :: rest => .ok rest ['\r', '\n']
  | _ => .err

/-- nom character::complete::not_line_ending: everything up to the first CR or LF
(possibly empty); a CR not followed by LF is an Error. -/
def not_line_ending (input : List Char) : PRes (List Char) :=
  match splitWhile (fun c => c ≠ '\r' && c ≠ '\n') input with
  | (m, []) => .ok [] m
  | (m, '\r' :: '\n' :: r) => .ok ('\r' :: '\n' :: r) m
  | (_, '\r' :: _) => .err
  | (m, rest) => .ok rest m

/-- nom character::streaming::not_line_ending (used in origin.rs): like the
complete version but reaching end-of-input without a line ending is
Err::Incomplete, collapsed here into err (see the module comment). -/
def not_line_ending_streaming (input : List Char) : PRes (List Char) :=
  match splitWhile (fun c => c ≠ '\r' && c ≠ '\n') input with
  | (_, []) => .err
  | (m, '\r' :: '\n' :: r) => .ok ('\r' :: '\n' :: r) m
  | (_, '\r' :: _) => .err
  | (m, rest) => .ok rest m

/-! version.rs -/

structure Version where
  version : Nat
deriving DecidableEq

def Version.new (version : Nat) : Version := ⟨version⟩

/-- version.rs parse_version:
map(preceded(tag("v="), terminated(u8, opt(line_ending))), Version::new). -/
def parse_version (input : List Char) : PRes Version :=
  pmap (precededP (tagP "v=".toList) (terminatedP u8P (optP line_ending))) Version.new input

/-! origin.rs -/

inductive NetType where
  | IN
deriving DecidableEq

/-- origin.rs: impl FromStr for NetType (Err modelled as none). -/
def NetType.from_str (s : List Char) : Option NetType :=
  if s = "IN".toList then some .IN else none

inductive AddrType where
  | IP4
  | IP6
deriving DecidableEq

/-- origin.rs: impl FromStr for AddrType (Err modelled as none). -/
def AddrType.from_str (s : List Char) : Option AddrType :=
  if s = "IP4".toList then some .IP4
  else if s = "IP6".toList then some .IP6
  else none

/-- std::net::IpAddr: V4 carries the four octets, V6 the eight 16-bit groups. -/
inductive IpAddr where
  | v4 : Nat → Nat → Nat → Nat → IpAddr
  | v6 : List Nat → IpAddr
deriving DecidableEq

/-! Embedding of the std::net textual address parser (core::net::parser), which
origin.rs invokes through s.parse::<IpAddr>().  The Rust Parser threads a byte
cursor; here each reader takes the cursor (List Char) and returns
Option (value × rest); returning none corresponds to the reader failing with
the cursor restored (read_atomically). -/

/-- char::to_digit(radix). -/
def charToDigit (radix : Nat) (c : Char) : Option Nat :=
  let v : Option Nat :=
    if c.isDigit then some (c.toNat - 48)
    else if 'a' ≤ c ∧ c ≤ 'z' then some (c.toNat - 97 + 10)
    else if 'A' ≤ c ∧ c ≤ 'Z' then some (c.toNat - 65 + 10)
    else none
  match v with
  | some d => if d < radix then some d else none
  | none => none

/-- Parser::read_given_char. -/
def readGivenChar (target : Char) : List Char → Option (List Char)
  | c :: rest => if c = target then some rest else none
  | [] => none

/-- Parser::read_separator: when index > 0 a separator character must come first. -/
def readSeparator (sep : Char) (index : Nat) (inner : List Char → Option (α × List Char))
    (s : List Char) : Option (α × List Char) :=
  if index > 0 then
    match readGivenChar sep s with
    | some s2 => inner s2
    | none => none
  else inner s

/-- The digit loop of Parser::read_number: returns (value, digit count, rest);
none when the value overflows maxVal or the digit count exceeds maxDigits
(the Rust code aborts the whole read in both cases). -/
def readNumberLoop (radix maxVal : Nat) (maxDigits : Option Nat) :
    List Char → Nat → Nat → Option (Nat × Nat × List Char)
  | [], acc, cnt => some (acc, cnt, [])
  | c :: rest, acc, cnt =>
    match charToDigit radix c with
    | none => some (acc, cnt, c :: rest)
    | some d =>
      if acc * radix + d > maxVal then none
      else
        match maxDigits with
        | some m =>
          if cnt + 1 > m then none
          else readNumberLoop radix maxVal maxDigits rest (acc * radix + d) (cnt + 1)
        | none => readNumberLoop radix maxVal maxDigits rest (acc * radix + d) (cnt + 1)

/-- Parser::read_number: at least one digit; a leading zero with more than one
digit is rejected unless allowLeadingZeros. -/
def readNumber (radix maxVal : Nat) (maxDigits : Option Nat) (allowLeadingZeros : Bool)
    (s : List Char) : Option (Nat × List Char) :=
  let leadingZero : Bool := match s with | '0' :: _ => true | _ => false
  match readNumberLoop radix maxVal maxDigits s 0 0 with
  | none => none
  | some (v, cnt, rest) =>
    if cnt = 0 then none
    else if !allowLeadingZeros && leadingZero && cnt > 1 then none
    else some (v, rest)

/-- Parser::read_ipv4_addr: four dot-separated decimal octets, at most three
digits each, no leading zeros. -/
def readIpv4Addr (s : List Char) : Option ((Nat × Nat × Nat × Nat) × List Char) :=
  match readSeparator '.' 0 (readNumber 10 255 (some 3) false) s with
  | none => none
  | some (a, s1) =>
  match readSeparator '.' 1 (readNumber 10 255 (some 3) false) s1 with
  | none => none
  | some (b, s2) =>
  match readSeparator '.' 2 (readNumber 10 255 (some 3) false) s2 with
  | none => none
  | some (c, s3) =>
  match readSeparator '.' 3 (readNumber 10 255 (some 3) false) s3 with
  | none => none
  | some (d, s4) => some ((a, b, c, d), s4)

/-- The read_groups helper inside Parser::read_ipv6_addr: reads up to n more
colon-separated 16-bit hex groups (i is the enumeration index used for the
separator); with two or more slots remaining it first tries an embedded
trailing IPv4 address.  Returns (groups read, embedded-IPv4 flag, rest). -/
def readGroupsAux : Nat → Nat → List Char → List Nat → List Nat × Bool × List Char
  | _, 0, s, acc => (acc, false, s)
  | i, n + 1, s, acc =>
    let v4try : Option ((Nat × Nat × Nat × Nat) × List Char) :=
      if n + 1 ≥ 2 then readSeparator ':' i readIpv4Addr s else none
    match v4try with
    | some ((a, b, c, d), rest) => (acc ++ [a * 256 + b, c * 256 + d], true, rest)
    | none =>
      match readSeparator ':' i (readNumber 16 65535 (some 4) true) s with
      | some (g, rest) => readGroupsAux (i + 1) n rest (acc ++ [g])
      | none => (acc, false, s)

/-- Parser::read_ipv6_addr: head groups, then an optional :: followed by tail
groups (the :: must stand for at least one zero group); an embedded IPv4 is
only allowed at the very end. -/
def readIpv6Addr (s : List Char) : Option (List Nat × List Char) :=
  let headRes := readGroupsAux 0 8 s []
  let head := headRes.1
  let headIpv4 := headRes.2.1
  let s1 := headRes.2.2
  if head.length = 8 then some (head, s1)
  else if headIpv4 then none
  else
    match readGivenChar ':' s1 with
    | none => none
    | some s2 =>
    match readGivenChar ':' s2 with
    | none => none
    | some s3 =>
      let limit := 8 - (head.length + 1)
      let tailRes := readGroupsAux 0 limit s3 []
      let tl := tailRes.1
      let s4 := tailRes.2.2
      some (head ++ List.replicate (8 - head.length - tl.length) 0 ++ tl, s4)

/-- Parser::read_ip_addr: IPv4 first, otherwise IPv6. -/
def readIpAddr (s : List Char) : Option (IpAddr × List Char) :=
  match readIpv4Addr s with
  | some ((a, b, c, d), rest) => some (.v4 a b c d, rest)
  | none =>
    match readIpv6Addr s with
    | some (gs, rest) => some (.v6 gs, rest)
    | none => none

/-- impl FromStr for std::net::IpAddr: the whole input must be consumed. -/
def IpAddr.from_str (s : List Char) : Option IpAddr :=
  match readIpAddr s with
  | some (addr, rest) => if rest.isEmpty then some addr else none
  | none => none

structure Origin where
  username : List Char
  session_id : List Char
  session_version : Nat
  nettype : NetType
  addrtype : AddrType
  unicast_address : IpAddr
deriving DecidableEq

def Origin.new (username session_id : List Char) (session_version : Nat)
    (nettype : NetType) (addrtype : AddrType) (unicast_address : IpAddr) : Origin :=
  ⟨username, session_id, session_version, nettype, addrtype, unicast_address⟩

/-- origin.rs parse_username: terminated(alt((alphanumeric1, tag("-"))), multispace1). -/
def parse_username (input : List Char) : PRes (List Char) :=
  terminatedP (alt2 alphanumeric1 (tagP "-".toList)) multispace1 input

/-- origin.rs parse_session_id: terminated(digit1, multispace1). -/
def parse_session_id (input : List Char) : PRes (List Char) :=
  terminatedP digit1 multispace1 input

/-- origin.rs parse_session_version: terminated(u64, multispace1). -/
def parse_session_version (input : List Char) : PRes Nat :=
  terminatedP u64P multispace1 input

/-- origin.rs parse_nettype:
terminated(map(alpha1, |s| NetType::from_str(s).unwrap()), multispace1). -/
def parse_nettype (input : List Char) : PRes NetType :=
  terminatedP (pmapUnwrap alpha1 NetType.from_str) multispace1 input

/-- origin.rs parse_addrtype:
terminated(map(alphanumeric1, |s| AddrType::from_str(s).unwrap()), multispace1). -/
def parse_addrtype (input : List Char) : PRes AddrType :=
  terminatedP (pmapUnwrap alphanumeric1 AddrType.from_str) multispace1 input

/-- origin.rs parse_ip_address: alt of a dotted-quad branch (four u8 separated
by tag(".") with the last terminated by line_ending) and a fallback branch
terminated(not_line_ending (streaming), line_ending) whose map closure calls
s.parse::<IpAddr>().unwrap(). -/
def parse_ip_address (input : List Char) : PRes IpAddr :=
  alt2
    (pmap
      (pbind (terminatedP u8P (tagP ".".toList)) (fun a =>
        pbind (terminatedP u8P (tagP ".".toList)) (fun b =>
          pbind (terminatedP u8P (tagP ".".toList)) (fun c =>
            pbind (terminatedP u8P line_ending) (fun d =>
              pureP (a, b, c, d))))))
      (fun x => IpAddr.v4 x.1 x.2.1 x.2.2.1 x.2.2.2))
    (pmapUnwrap (terminatedP not_line_ending_streaming line_ending) IpAddr.from_str)
    input

/-- origin.rs parse_origin: tag("o=") then the six field parsers in sequence,
each failure propagated with the ? operator. -/
def parse_origin (input : List Char) : PRes Origin :=
  match tagP "o=".toList input with
  | .err => .err
  | .panicked => .panicked
  | .ok t0 _ =>
  match parse_username t0 with
  | .err => .err
  | .panicked => .panicked
  | .ok t1 username =>
  match parse_session_id t1 with
  | .err => .err
  | .panicked => .panicked
  | .ok t2 session_id =>
  match parse_session_version t2 with
  | .err => .err
  | .panicked => .panicked
  | .ok t3 session_version =>
  match parse_nettype t3 with
  | .err => .err
  | .panicked => .panicked
  | .ok t4 nettype =>
  match parse_addrtype t4 with
  | .err => .err
  | .panicked => .panicked
  | .ok t5 addrtype =>
  match parse_ip_address t5 with
  | .err => .err
  | .panicked => .panicked
  | .ok t6 unicast_address =>
    .ok t6 ⟨username, session_id, session_version, nettype, addrtype, unicast_address⟩

/-! session_name.rs -/

structure SessionName where
  name : List Char
deriving DecidableEq

def SessionName.new (name : List Char) : SessionName := ⟨name⟩

/-- session_name.rs SessionName::validate_char_set: returns true when the
charset is empty, and otherwise also returns true (the validation body is a
TODO in the source). -/
def SessionName.validate_char_set (self : SessionName) (char_set : List Char) : Bool :=
  if char_set.isEmpty then true
  else true

/-- session_name.rs parse_session_name:
map(preceded(tag("s="), terminated(not_line_ending, opt(line_ending))), SessionName::new). -/
def parse_session_name (input : List Char) : PRes SessionName :=
  pmap (precededP (tagP "s=".toList) (terminatedP not_line_ending (optP line_ending)))
    SessionName.new input

/-! mod.rs -/

inductive SessionDescriptionKeys where
  | Version
  | Origin
  | SessionName
  | SessionInformation
  | URI
  | EmailAddress
  | PhoneNumber
  | ConnectionInformation
  | BandwidthInformation
  | EncryptionKey
  | Attribute
deriving DecidableEq

structure SessionDescription where
  version : Version
  origin : Origin
  session_name : SessionName
deriving DecidableEq

def SessionDescription.new (version : Version) (origin : Origin)
    (session_name : SessionName) : SessionDescription :=
  ⟨version, origin, session_name⟩

/-- mod.rs peek_key: peek(alpha1), then dispatch on the peeked letter; any
letter other than v, o, s hits unimplemented! and panics. -/
def peek_key (input : List Char) : PRes SessionDescriptionKeys :=
  match peekP alpha1 input with
  | .ok tail p =>
    if p = "v".toList then .ok tail .Version
    else if p = "o".toList then .ok tail .Origin
    else if p = "s".toList then .ok tail .SessionName
    else .panicked
  | .err => .err
  | .panicked => .panicked

/-- Result of SessionDescription::from_str.  The declared Rust type is
Result<Self, ()>, but no code path builds Err(()); failures inside the loop go
through .unwrap() / unimplemented!, i.e. they panic. -/
inductive RunRes (α : Type) where
  | ok : α → RunRes α
  | panicked : RunRes α
deriving DecidableEq

/-- The mutable state of the from_str loop: the three accumulators and the
OUTER tail binding.  Note the Rust source re-binds tail inside the loop body
with let (mut tail, key) = peek_key(tail).unwrap(), shadowing the outer
binding; the assignments tail = rem target the inner binding only, so the
outer tail (checked by the while condition and fed to peek_key) never
advances. -/
structure LoopState where
  version : Version
  origin : Origin
  session_name : SessionName
  tail : List Char
deriving DecidableEq

inductive StepRes where
  | done : RunRes SessionDescription → StepRes
  | next : LoopState → StepRes
deriving DecidableEq

/-- One iteration of the while loop in from_str (including the surrounding
while test and, when the loop exits, the final Ok(SessionDescription::new(..))).
A done value means from_str returns; next st means another iteration runs with
state st. -/
def from_str_step (st : LoopState) : StepRes :=
  if st.tail.isEmpty then
    .done (.ok (SessionDescription.new st.version st.origin st.session_name))
  else
    match peek_key st.tail with
    | .err => .done .panicked
    | .panicked => .done .panicked
    | .ok innerTail key =>
      match key with
      | .Version =>
        match parse_version innerTail with
        | .err => .done .panicked
        | .panicked => .done .panicked
        | .ok rem v =>
          if rem.isEmpty then
            .done (.ok (SessionDescription.new v st.origin st.session_name))
          else .next { st with version := v }
      | .Origin =>
        match parse_origin innerTail with
        | .err => .done .panicked
        | .panicked => .done .panicked
        | .ok rem o =>
          if rem.isEmpty then
            .done (.ok (SessionDescription.new st.version o st.session_name))
          else .next { st with origin := o }
      | .SessionName =>
        match parse_session_name innerTail with
        | .err => .done .panicked
        | .panicked => .done .panicked
        | .ok rem sn =>
          if rem.isEmpty then
            .done (.ok (SessionDescription.new st.version st.origin sn))
          else .next { st with session_name := sn }
      | _ => .done .panicked
      -- the wildcard arm is the unimplemented!("key not implemented") in
      -- from_str; it is unreachable because peek_key only yields the three
      -- keys above

/-- Runs the from_str loop for at most fuel iterations; none means the loop has
not returned yet (the Rust loop has no iteration bound, so a result that stays
none for every fuel is an infinite loop). -/
def from_str_loop : Nat → LoopState → Option (RunRes SessionDescription)
  | 0, _ => none
  | fuel + 1, st =>
    match from_str_step st with
    | .done r => some r
    | .next st' => from_str_loop fuel st'

/-- The loop state on entry of from_str: the three accumulators hold the
defaults built at the top of the function, and tail is the whole input. -/
def from_str_init (s : List Char) : LoopState :=
  { version := Version.new 0
  , origin := Origin.new [] [] 0 .IN .IP4 (IpAddr.v4 0 0 0 0)
  , session_name := SessionName.new []
  , tail := s }

/-- SessionDescription::from_str run for at most fuel loop iterations. -/
def from_str_run (fuel : Nat) (s : List Char) : Option (RunRes SessionDescription) :=
  from_str_loop fuel (from_str_init s)

/-! Helper lemmas about the from_str loop and peek. -/

/-- A loop state that steps to itself never terminates, whatever the iteration bound. -/
theorem from_str_loop_fix (st : LoopState) (h : from_str_step st = .next st) :
    ∀ n, from_str_loop n st = none := by
  intro n
  induction n with
  | zero => rfl
  | succ n ih => simp [from_str_loop, h, ih]

/-- A loop state that steps to a self-stepping state never terminates either. -/
theorem from_str_loop_next_fix (st st' : LoopState) (h1 : from_str_step st = .next st')
    (h2 : from_str_step st' = .next st') : ∀ n, from_str_loop n st = none := by
  intro n
  cases n with
  | zero => rfl
  | succ n => simp [from_str_loop, h1, from_str_loop_fix st' h2 n]

/-- peekP returns the original input as the remainder whenever it succeeds. -/
theorem peekP_rest (p : List Char → PRes α) (s t : List Char) (v : α)
    (h : peekP p s = .ok t v) : t = s := by
  unfold peekP at h
  cases hp : p s <;> rw [hp] at h <;> simp_all

/-! Claim theorems. -/

/-- C1 counterexample: the input "v=1" (a v= line whose numeric value is 1, not
0) parses successfully, and the resulting protocol version is not 0 — there is
no InvalidVersion check. -/
theorem from_str_succeeds_with_nonzero_version :
    ∃ sd, from_str_run 1 "v=1".toList = some (.ok sd) ∧ sd.version ≠ Version.new 0 :=
  ⟨SessionDescription.new (Version.new 1) (Origin.new [] [] 0 .IN .IP4 (.v4 0 0 0 0))
    (SessionName.new []), by decide, by decide⟩

/-- C1 amended: parse_version accepts any u8 value on a v= line without
checking it against 0 (there is no InvalidVersion error), so a successful
from_str can return a nonzero protocol version, e.g. 1 for the input "v=1". -/
theorem parse_version_no_zero_check :
    parse_version "v=1\r\n".toList = PRes.ok [] (Version.new 1) ∧
    parse_version "v=7\r\n".toList = PRes.ok [] (Version.new 7) ∧
    from_str_run 1 "v=1".toList = some (.ok (SessionDescription.new (Version.new 1)
      (Origin.new [] [] 0 .IN .IP4 (.v4 0 0 0 0)) (SessionName.new []))) := by
  refine ⟨by decide, by decide, by decide⟩

/-- C2: on the minimal RFC 8866 input, from_str never terminates: the loop
re-binds tail through a shadowed let, so the outer tail never advances and
every iteration re-parses the v= line with an always-nonempty remainder.  The
loop state is a step fixpoint, hence no iteration bound ever yields a result. -/
theorem from_str_minimal_input_diverges :
    ∀ n, from_str_run n
      "v=0\r\no=jdoe 3724394400 3724394405 IN IP4 198.51.100.1\r\ns=Call to John Smith\r\nt=0 0\r\n".toList
      = none := by
  intro n
  show from_str_loop n (from_str_init _) = none
  exact from_str_loop_fix _ (by decide) n

/-- C3 counterexample: an s= line with an empty body and a CRLF terminator
parses successfully to the empty session name instead of failing with
EmptySessionName. -/
theorem parse_session_name_accepts_empty :
    parse_session_name "s=\r\n".toList = PRes.ok [] (SessionName.new []) := by decide

/-- C3 amended: parse_session_name accepts an empty body (the terminator is
consumed and the empty string is returned as the name), and a successful
from_str can yield an empty session_name, e.g. for the input "s=". -/
theorem from_str_accepts_empty_session_name :
    parse_session_name "s=\r\nX".toList = PRes.ok ['X'] (SessionName.new []) ∧
    from_str_run 1 "s=".toList = some (.ok (SessionDescription.new (Version.new 0)
      (Origin.new [] [] 0 .IN .IP4 (.v4 0 0 0 0)) (SessionName.new []))) := by
  refine ⟨by decide, by decide⟩

/-- C4 counterexample: the input "v=0", which lacks an s= line, parses
successfully to a session description whose session name is the defaulted
empty string — no MissingField error is raised. -/
theorem from_str_missing_s_returns_default :
    from_str_run 1 "v=0".toList = some (.ok (SessionDescription.new (Version.new 0)
      (Origin.new [] [] 0 .IN .IP4 (.v4 0 0 0 0)) (SessionName.new []))) := by decide

/-- C4 amended: from_str has no missing-field detection: an input lacking s=
that otherwise completes parses successfully with session_name defaulted to
the empty string. -/
theorem from_str_missing_s_defaults_session_name :
    ∃ sd, from_str_run 1 "v=0\r\n".toList = some (.ok sd) ∧
      sd.session_name = SessionName.new [] :=
  ⟨SessionDescription.new (Version.new 0) (Origin.new [] [] 0 .IN .IP4 (.v4 0 0 0 0))
    (SessionName.new []), by decide, by decide⟩

/-- C5 counterexample: an input duplicating the singleton s= line is not
rejected with DuplicateField: after 1000 loop iterations from_str still has
not returned anything (the loop never terminates on any multi-line input). -/
theorem from_str_duplicate_s_not_rejected :
    from_str_run 1000 "s=a\r\ns=b\r\n".toList = none := by
  show from_str_loop 1000 (from_str_init _) = none
  exact from_str_loop_next_fix _
    { from_str_init "s=a\r\ns=b\r\n".toList with session_name := SessionName.new ['a'] }
    (by decide) (by decide) 1000

/-- C5 amended: there is no duplicate detection at all.  Session-scope c=, u=
and k= lines are not recognized (their letter panics in peek_key), and for the
implemented singletons duplicating the line makes from_str loop forever — the
later occurrence neither triggers DuplicateField nor gets a chance to
overwrite the earlier one in a terminating run. -/
theorem from_str_duplicate_singletons_diverge :
    from_str_run 1 "c=IN IP4 1.2.3.4\r\n".toList = some RunRes.panicked ∧
    from_str_run 1 "u=http://example.com\r\n".toList = some RunRes.panicked ∧
    from_str_run 1 "k=prompt\r\n".toList = some RunRes.panicked ∧
    (∀ n, from_str_run n "s=a\r\ns=b\r\n".toList = none) ∧
    (∀ n, from_str_run n "v=0\r\nv=0\r\n".toList = none) := by
  refine ⟨by decide, by decide, by decide, fun n => ?_, fun n => ?_⟩
  · show from_str_loop n (from_str_init _) = none
    exact from_str_loop_next_fix _
      { from_str_init "s=a\r\ns=b\r\n".toList with session_name := SessionName.new ['a'] }
      (by decide) (by decide) n
  · show from_str_loop n (from_str_init _) = none
    exact from_str_loop_fix _ (by decide) n

/-- C6 counterexample: the input "b=AS:64" (an unrecognized line letter) makes
from_str panic through the unimplemented! marker in peek_key instead of
returning an error value. -/
theorem from_str_unknown_letter_panics :
    from_str_run 1 "b=AS:64\r\n".toList = some RunRes.panicked := by decide

/-- C6 amended: parsing does not always terminate with a value: unrecognized
line letters, a nettype other than IN, an addrtype other than IP4/IP6 and a
malformed fallback address all abort with a panic (unimplemented! or unwrap),
and a multi-line input whose first line parses makes the loop run forever. -/
theorem from_str_panics_or_diverges :
    from_str_run 1 "z=0 0\r\n".toList = some RunRes.panicked ∧
    from_str_run 1 "o=jdoe 1 1 XX IP4 1.2.3.4\r\n".toList = some RunRes.panicked ∧
    from_str_run 1 "o=jdoe 1 1 IN IP5 1.2.3.4\r\n".toList = some RunRes.panicked ∧
    from_str_run 1 "o=jdoe 1 1 IN IP4 banana\r\n".toList = some RunRes.panicked ∧
    (∀ n, from_str_run n "v=0\r\ns=x\r\n".toList = none) := by
  refine ⟨by decide, by decide, by decide, by decide, fun n => ?_⟩
  show from_str_loop n (from_str_init _) = none
  exact from_str_loop_fix _ (by decide) n

/-- C7 counterexample: in the only mode the code has, a v= line whose final
line lacks the CRLF terminator is accepted, contradicting the strict-mode
requirement that it be rejected. -/
theorem parse_version_accepts_missing_terminator :
    parse_version "v=0".toList = PRes.ok [] (Version.new 0) := by decide

/-- C7 amended: there is no strict/lenient configuration flag: the line
terminator after the v= and s= bodies is optional (opt(line_ending)), and
nom's line_ending accepts a bare LF as a terminator. -/
theorem terminator_optional_and_lf_accepted :
    parse_version "v=0\n".toList = PRes.ok [] (Version.new 0) ∧
    parse_session_name "s=x".toList = PRes.ok [] (SessionName.new ['x']) ∧
    parse_session_name "s=x\n".toList = PRes.ok [] (SessionName.new ['x']) ∧
    line_ending "\n".toList = PRes.ok [] ['\n'] := by
  refine ⟨by decide, by decide, by decide, by decide⟩

/-- C8 counterexample: the username "j-doe", a non-empty run of characters
from [A-Za-z0-9-], is rejected by parse_username (the alphanumeric run stops
at the dash and the required whitespace is not found). -/
theorem parse_username_rejects_mixed_token :
    parse_username "j-doe 1".toList = PRes.err := by decide

/-- C8 amended: the username grammar is a single maximal alphanumeric run or
exactly the literal "-", followed by whitespace: "jdoe" and "-" are accepted
with the run returned, but a mixed run containing a dash such as "j-doe" is
rejected, at parse_username and at parse_origin alike. -/
theorem parse_username_alnum_run_or_dash :
    parse_username "jdoe 1".toList = PRes.ok "1".toList "jdoe".toList ∧
    parse_username "- 1".toList = PRes.ok "1".toList "-".toList ∧
    parse_username "j-doe 1".toList = PRes.err ∧
    parse_origin "o=j-doe 1 1 IN IP4 1.2.3.4\r\n".toList = PRes.err := by
  refine ⟨by decide, by decide, by decide, by decide⟩

/-- C9: peek_key is non-consuming: whenever it succeeds, the remaining-input
component of its result is the original input unchanged. -/
theorem peek_key_nonconsuming (s rest : List Char) (k : SessionDescriptionKeys)
    (h : peek_key s = .ok rest k) : rest = s := by
  unfold peek_key at h
  split at h
  · rename_i tail p heq
    have ht : tail = s := peekP_rest alpha1 s tail p heq
    subst ht
    split at h
    · injection h with hr _
      exact hr.symm
    · split at h
      · injection h with hr _
        exact hr.symm
      · split at h
        · injection h with hr _
          exact hr.symm
        · exact PRes.noConfusion h
  · exact PRes.noConfusion h
  · exact PRes.noConfusion h

/-- C9 witness: peek_key succeeds on "o=x" with the remainder equal to the
whole input, discharging the hypothesis of peek_key_nonconsuming there. -/
theorem peek_key_nonconsuming_witness : ("o=x".toList : List Char) = "o=x".toList :=
  peek_key_nonconsuming "o=x".toList "o=x".toList SessionDescriptionKeys.Origin (by decide)

/-- C10: SessionName::validate_char_set returns true for every session name
and every charset argument: both branches of its body return true, so no
actual validation takes place. -/
theorem validate_char_set_always_true (n : SessionName) (cs : List Char) :
    n.validate_char_set cs = true := by
  unfold SessionName.validate_char_set
  split <;> rfl

end SdpParser

